import Mathlib

/-!
Shallow embedding of the token-refresh core of `src/core/FetchManager.js`
(the authenticated-fetch / refresh coordinator), together with proofs of the
behavioural properties stated in the specification of the repository.

Modelling conventions:
* a JavaScript string-or-absent value (a value that may be `null`/`undefined`)
  is `Option String`, with `none` for `null`/`undefined`;
* JS truthiness on such values: `none` and `some ""` are falsy;
* header objects are modelled as association lists up to `lookup`;
* the asynchronous environment (storage accessors, clock, transport) is passed
  in as oracle arguments, since the core never caches them itself.
-/

namespace FetchManagerModel

/-- Truthiness of a JS string-or-absent value: `null`, `undefined` and the
empty string are falsy, every other string is truthy. -/
def jsTruthy : Option String → Bool
  | none => false
  | some s => decide (s ≠ "")

/-- Evaluation of the JS expression `a || b` on string-or-absent values. -/
def jsOr (a b : Option String) : Option String :=
  if jsTruthy a then a else b

/-- Evaluation of a JS template interpolation `${v}` of a possibly-undefined
string value: `undefined` prints as the string `"undefined"`. -/
def jsInterp : Option String → String
  | some s => s
  | none => "undefined"

/-- Check that `hay` begins with `needle` (character lists). -/
def startsWithList : List Char → List Char → Bool
  | _, [] => true
  | [], _ :: _ => false
  | h :: hs, n :: ns => h == n && startsWithList hs ns

/-- Check that `needle` occurs as a contiguous run inside `hay`
(character lists). -/
def hasSub : List Char → List Char → Bool
  | [], needle => needle.isEmpty
  | c :: t, needle => startsWithList (c :: t) needle || hasSub t needle

/-- Evaluation of JS `hay.includes(needle)` (substring containment), as used
for the `skipRefreshUrls` match in `FetchManager.js` line 42. -/
def jsIncludes (hay needle : String) : Bool :=
  hasSub hay.toList needle.toList

/-- Shape of the JSON response body of the refresh endpoint, restricted to the four
field names `FetchManager.refreshToken` consults (line 159).  An absent field
is `none`. -/
structure RefreshBody where
  accessToken : Option String
  newAccessToken : Option String
  access_token : Option String
  token : Option String
deriving DecidableEq

/-- Token extraction of `FetchManager.js` line 159:
`response.accessToken || response.newAccessToken || response.access_token ||
response.token`. -/
def extractToken (r : RefreshBody) : Option String :=
  jsOr r.accessToken (jsOr r.newAccessToken (jsOr r.access_token r.token))

/-- Spec-side formulation of the extraction rule: the value of the first
truthy field in the given priority order ("first matching field wins"). -/
def firstTruthyField : List (Option String) → Option String
  | [] => none
  | a :: rest => if jsTruthy a then a else firstTruthyField rest

/-- The three ways `FetchManager.refreshToken` can reject. -/
inductive RefreshErr where
  /-- rejection for a missing refresh token (line 139). -/
  | noRefreshToken
  /-- rejection for an expired refresh token (line 148). -/
  | expired
  /-- the `$fetchRaw` POST to the refresh endpoint rejected (line 153). -/
  | transport
deriving DecidableEq

/-- Expiry test of `FetchManager.js` lines 145-149: when a (truthy) expiration
value is present, the refresh is expired iff `currentTime >= Number(exp)`.
`exp` is the numeric reading of a truthy accessor result, `none` when the
accessor returned an absent/falsy value. -/
def expiryExpired (exp : Option Int) (now : Int) : Bool :=
  match exp with
  | none => false
  | some e => decide (now ≥ e)

instance {ε α : Type} [DecidableEq ε] [DecidableEq α] :
    DecidableEq (Except ε α) := fun a b =>
  match a, b with
  | .ok x, .ok y =>
    if h : x = y then isTrue (by rw [h])
    else isFalse (by intro hc; cases hc; exact h rfl)
  | .error x, .error y =>
    if h : x = y then isTrue (by rw [h])
    else isFalse (by intro hc; cases hc; exact h rfl)
  | .ok _, .error _ => isFalse (by intro hc; cases hc)
  | .error _, .ok _ => isFalse (by intro hc; cases hc)

/-- Outcome of one invocation of `FetchManager.refreshToken`, together with
the number of POSTs it issued to the refresh endpoint. -/
structure RefreshRun where
  result : Except RefreshErr (Option String)
  netCalls : Nat
deriving DecidableEq

/-- The `$fetchRaw` POST of lines 153-159: one network call is issued; a
transport rejection propagates, a successful body goes through
`extractToken`. -/
def issueRefreshNet (net : Except Unit RefreshBody) : RefreshRun :=
  match net with
  | .error _ => { result := .error .transport, netCalls := 1 }
  | .ok body => { result := .ok (extractToken body), netCalls := 1 }

/-- One invocation of `FetchManager.refreshToken` (lines 136-160).  Oracle
inputs: `rt` is what `getRefreshTokenFn` returns, `exp` the numeric reading of
the `getRefreshTokenExpirationFn` result (see `expiryExpired`), `now` is
`Math.floor(Date.now() / 1000)`, and `net` is the transport result of the
refresh POST, consumed only if the code reaches it. -/
def refreshTokenRun (rt : Option String) (exp : Option Int) (now : Int)
    (net : Except Unit RefreshBody) : RefreshRun :=
  if jsTruthy rt = false then
    { result := .error .noRefreshToken, netCalls := 0 }
  else if expiryExpired exp now then
    { result := .error .expired, netCalls := 0 }
  else
    issueRefreshNet net

/-- `FetchManager.hasRefreshToken` (lines 106-109): the stored refresh token
exists when it is not `null`, not `undefined` and not the empty string. -/
def hasRefreshToken (rt : Option String) : Bool :=
  decide (rt ≠ none) && decide (rt ≠ some "")

/-- What the `onResponseError` interceptor does with the response. -/
inductive HandlerOutcome where
  /-- `throw response`: the original response is the rejection. -/
  | propagateResponse
  /-- `return this.$fetch(request, options)`: retry with the new token. -/
  | refetch (tok : Option String)
  /-- `throw refreshError` after `handleTokenRefreshFailure()`. -/
  | refreshError (e : RefreshErr)
deriving DecidableEq

/-- Observable effects of one run of the `onResponseError` interceptor. -/
structure HandlerResult where
  outcome : HandlerOutcome
  /-- number of calls to `getRefreshTokenFn`. -/
  rtReads : Nat
  /-- number of POSTs issued to the refresh endpoint. -/
  refreshNetCalls : Nat
  /-- arguments of the calls to `saveTokenFn`, in order. -/
  saveCalls : List (Option String)
  /-- number of invocations of the configured `onRefreshFailCallback`. -/
  failCallbackCalls : Nat
  /-- whether `options._isRetry = true` was stamped. -/
  retriedSet : Bool
  /-- headers of the retried request, when one is issued. -/
  retriedHeaders : Option (List (String × String))
  /-- number of re-invocations of `this.$fetch(request, options)`. -/
  refetchCount : Nat
deriving DecidableEq

/-- Effect of the JS spread `{ ...hs, k: v }` on a header object, modelled up
to `lookup`: the key `k` now maps to `v`, every other key is unchanged. -/
def setHeader (hs : List (String × String)) (k v : String) :
    List (String × String) :=
  (k, v) :: hs.filter (fun p => p.1 ≠ k)

/-- The interceptor result when the response is simply re-thrown. -/
def propagateResult : HandlerResult :=
  { outcome := .propagateResponse
    rtReads := 0
    refreshNetCalls := 0
    saveCalls := []
    failCallbackCalls := 0
    retriedSet := false
    retriedHeaders := none
    refetchCount := 0 }

/-- One run of the `onResponseError` interceptor (`FetchManager.js` lines
36-80) for a request with URL `url`, options retry flag `isRetry` and headers
`headers0`, against a response of status `status`, in the sequential case
where the refresh coordinator is idle (so `queuedRefreshToken` runs
`refreshToken` directly; the concurrent case is modelled separately below).
`hasFailCallback` says whether `onRefreshFailCallback` is configured; the
remaining oracle arguments are as in `refreshTokenRun`. -/
def onResponseError (skipRefreshUrls : List String) (hasFailCallback : Bool)
    (status : Nat) (isRetry : Bool) (url : String)
    (headers0 : List (String × String))
    (rt : Option String) (exp : Option Int) (now : Int)
    (net : Except Unit RefreshBody) : HandlerResult :=
  if (status == 401) && !isRetry then
    if skipRefreshUrls.any (fun skipUrl => jsIncludes url skipUrl) then
      propagateResult
    else if hasRefreshToken rt = false then
      { propagateResult with rtReads := 1 }
    else
      let run := refreshTokenRun rt exp now net
      match run.result with
      | .error e =>
        { outcome := .refreshError e
          rtReads := 2
          refreshNetCalls := run.netCalls
          saveCalls := []
          failCallbackCalls := if hasFailCallback then 1 else 0
          retriedSet := false
          retriedHeaders := none
          refetchCount := 0 }
      | .ok tok =>
        { outcome := .refetch tok
          rtReads := 2
          refreshNetCalls := run.netCalls
          saveCalls := [tok]
          failCallbackCalls := 0
          retriedSet := true
          retriedHeaders :=
            some (setHeader headers0 "Authorization"
              ("Bearer " ++ jsInterp tok))
          refetchCount := 1 }
  else
    propagateResult

/-- Final outcome of one logical call to `FetchManager.fetch`. -/
inductive CallOutcome where
  /-- the transport returned a success status and the body resolves. -/
  | body
  /-- the call rejected with the response of status `s`. -/
  | errorStatus (s : Nat)
  /-- the call rejected with a refresh error. -/
  | refreshError (e : RefreshErr)
  /-- marker: the interceptor asked to retry an already-retried request.
  The model truncates here; the bounded-retry theorem proves this marker is
  unreachable. -/
  | furtherRetry
deriving DecidableEq

/-- Oracle environment for one logical call to `FetchManager.fetch`:
configuration, storage/clock/refresh-transport oracles, and the status the
main transport returns for each attempt (indexed by the `_isRetry` flag the
attempt carries). -/
structure FetchEnv where
  skipRefreshUrls : List String
  hasFailCallback : Bool
  url : String
  headers0 : List (String × String)
  rt : Option String
  exp : Option Int
  now : Int
  net : Except Unit RefreshBody
  statusOf : Bool → Nat
deriving Inhabited

/-- One logical call to `FetchManager.fetch(url, options)` with a fresh
options object (`_isRetry` unset), following the control flow of the code: the
transport runs; a status below 400 resolves with the body; otherwise the
`onResponseError` interceptor runs and either re-throws, throws a refresh
error, or re-invokes `this.$fetch` once with `_isRetry = true`, whose own 401
is handled by the same interceptor.  The second component counts transport
sends (attempts). -/
def runCall (env : FetchEnv) : CallOutcome × Nat :=
  let s0 := env.statusOf false
  if s0 < 400 then (.body, 1)
  else
    let h0 := onResponseError env.skipRefreshUrls env.hasFailCallback s0 false
      env.url env.headers0 env.rt env.exp env.now env.net
    match h0.outcome with
    | .propagateResponse => (.errorStatus s0, 1)
    | .refreshError e => (.refreshError e, 1)
    | .refetch _ =>
      let s1 := env.statusOf true
      if s1 < 400 then (.body, 2)
      else
        let h1 := onResponseError env.skipRefreshUrls env.hasFailCallback s1
          true env.url env.headers0 env.rt env.exp env.now env.net
        match h1.outcome with
        | .propagateResponse => (.errorStatus s1, 2)
        | .refreshError e => (.refreshError e, 2)
        | .refetch _ => (.furtherRetry, 2)

/-!
Concurrency model of the refresh coordinator.

`FetchManager` runs on a single-threaded event loop.  The synchronous body of
`queuedRefreshToken` (lines 112-132) — the `if (this.refreshPromise)` check
and the assignment `this.refreshPromise = ...` — contains no `await`, so each
invocation runs atomically.  The `.then`/`.catch` handlers installed on the
refresh promise (lines 121-130) also run atomically: they clear
`isRefreshing` and `refreshPromise` and only then deliver the value/error, so
waiters resume strictly afterwards.  The resumption of a waiter is the rest of the
`onResponseError` body (lines 59-75): on success it calls `saveTokenFn` and
retries, on failure it calls `handleTokenRefreshFailure()` and re-throws.

The machine below has one atomic step per such segment.
-/

/-- Outcome a refresh promise delivers to its waiters. -/
inductive COutcome where
  | success (tok : Option String)
  | failure (e : RefreshErr)
deriving DecidableEq

/-- View of a `RefreshRun` as the outcome its promise settles with. -/
def runOutcome (run : RefreshRun) : COutcome :=
  match run.result with
  | .ok t => .success t
  | .error e => .failure e

/-- State of the refresh coordination of one `FetchManager` instance, plus
instrumentation counters.  Promise identities are natural numbers allocated
from `nextId`. -/
structure CoordState where
  /-- `this.refreshPromise`: identity of the in-flight promise, if any. -/
  refreshPromise : Option Nat
  /-- `this.isRefreshing`. -/
  isRefreshing : Bool
  /-- outcome the in-flight refresh will settle with (fixed at start, since
  the oracles are fixed). -/
  pending : Option COutcome
  /-- next unused promise identity. -/
  nextId : Nat
  /-- number of invocations of `this.refreshToken()` (line 120). -/
  starts : Nat
  /-- number of POSTs issued to the refresh endpoint. -/
  endpointCalls : Nat
  /-- which promise each caller was handed by `queuedRefreshToken`. -/
  waiters : List (Nat × Nat)
  /-- outcome each settled promise delivered. -/
  settledOutcomes : List (Nat × COutcome)
  /-- callers whose continuation has already run. -/
  delivered : List Nat
  /-- number of invocations of the configured `onRefreshFailCallback`. -/
  failCallbackCalls : Nat
  /-- arguments of the calls to `saveTokenFn`, latest first. -/
  savedTokens : List (Option String)
deriving DecidableEq

/-- Coordinator state of a freshly constructed `FetchManager`
(lines 15-16: `isRefreshing = false`, `refreshPromise = null`). -/
def initCoord : CoordState :=
  { refreshPromise := none
    isRefreshing := false
    pending := none
    nextId := 0
    starts := 0
    endpointCalls := 0
    waiters := []
    settledOutcomes := []
    delivered := []
    failCallbackCalls := 0
    savedTokens := [] }

/-- Atomic event-loop segments relevant to refresh coordination. -/
inductive CEvent where
  /-- the interceptor of caller `c` observed a 401 (retry flag unset, URL not
  exempt, refresh token present) and invoked `queuedRefreshToken`
  synchronously (lines 112-132). -/
  | req401 (c : Nat)
  /-- the in-flight `refreshToken()` promise settled: the `.then`/`.catch`
  handler of lines 121-130 runs, clearing the shared state before any waiter
  resumes. -/
  | settle
  /-- the `await this.queuedRefreshToken()` of caller `c` resumes (lines 59-75):
  on success `saveTokenFn` runs, on failure `handleTokenRefreshFailure()`
  runs.  A caller resumes at most once. -/
  | resume (c : Nat)
deriving DecidableEq

/-- One atomic step of the coordinator.  `run` is the (oracle-determined)
behaviour of a `refreshToken()` invocation; `hasFailCallback` says whether
`onRefreshFailCallback` is configured. -/
def stepCoord (hasFailCallback : Bool) (run : RefreshRun) (s : CoordState) :
    CEvent → CoordState
  | .req401 c =>
    match s.refreshPromise with
    | some p => { s with waiters := (c, p) :: s.waiters }
    | none =>
      { s with
        refreshPromise := some s.nextId
        isRefreshing := true
        pending := some (runOutcome run)
        nextId := s.nextId + 1
        starts := s.starts + 1
        endpointCalls := s.endpointCalls + run.netCalls
        waiters := (c, s.nextId) :: s.waiters }
  | .settle =>
    match s.refreshPromise, s.pending with
    | some p, some o =>
      { s with
        settledOutcomes := (p, o) :: s.settledOutcomes
        refreshPromise := none
        pending := none
        isRefreshing := false }
    | _, _ => s
  | .resume c =>
    if s.delivered.contains c then s
    else
      match s.waiters.lookup c with
      | none => s
      | some p =>
        match s.settledOutcomes.lookup p with
        | none => s
        | some (.failure _) =>
          { s with
            delivered := c :: s.delivered
            failCallbackCalls :=
              s.failCallbackCalls + (if hasFailCallback then 1 else 0) }
        | some (.success t) =>
          { s with
            delivered := c :: s.delivered
            savedTokens := t :: s.savedTokens }

/-- Run a list of events from the initial coordinator state. -/
def runCoord (hasFailCallback : Bool) (run : RefreshRun)
    (evs : List CEvent) : CoordState :=
  evs.foldl (stepCoord hasFailCallback run) initCoord

/-- Outcome caller `c` observes from its `queuedRefreshToken` promise, once
that promise has settled. -/
def observe (s : CoordState) (c : Nat) : Option COutcome :=
  (s.waiters.lookup c).bind (fun p => s.settledOutcomes.lookup p)

/-- Canonical single-flight scenario: `c0` observes the first 401 (starting
the refresh), the callers in `cs` each observe a 401 while that refresh is
pending, then the refresh settles. -/
def singleFlightTrace (c0 : Nat) (cs : List Nat) : List CEvent :=
  ((c0 :: cs).map CEvent.req401) ++ [CEvent.settle]

/-- Canonical failing-refresh scenario with waiters `cs`: every caller joins
the same refresh, it settles, then the continuation of every caller runs. -/
def failureTrace (cs : List Nat) : List CEvent :=
  (cs.map CEvent.req401) ++ [CEvent.settle] ++ (cs.map CEvent.resume)

/-- Coordinator invariant: settled promise identities are in the allocated
range, and the in-flight promise (if any) is freshly allocated and has not
settled yet. -/
def CoordInv (s : CoordState) : Prop :=
  (∀ q ∈ s.settledOutcomes, q.1 < s.nextId) ∧
  (∀ p : Nat, s.refreshPromise = some p →
    p < s.nextId ∧ ∀ o, (p, o) ∉ s.settledOutcomes)

/-! Helper lemmas. -/

/-- The `hasRefreshToken` test (not null, not undefined, not empty) agrees
with JS truthiness on string-or-absent values. -/
theorem hasRefreshToken_eq_jsTruthy (rt : Option String) :
    hasRefreshToken rt = jsTruthy rt := by
  cases rt <;> simp [hasRefreshToken, jsTruthy]

/-- When the token check and the expiry check both pass, `refreshToken`
reaches the network and issues exactly one POST. -/
theorem refreshTokenRun_net (rt : Option String) (exp : Option Int)
    (now : Int) (net : Except Unit RefreshBody)
    (hrt : jsTruthy rt = true) (hexp : expiryExpired exp now = false) :
    refreshTokenRun rt exp now net = issueRefreshNet net := by
  simp [refreshTokenRun, hrt, hexp]

/-- A reached refresh POST is exactly one endpoint call. -/
theorem issueRefreshNet_netCalls (net : Except Unit RefreshBody) :
    (issueRefreshNet net).netCalls = 1 := by
  cases net <;> rfl

/-! Claim theorems: sequential interceptor behaviour. -/

/-- C3.  Token field priority: for every refresh response body with at least
one truthy field among `accessToken`, `newAccessToken`, `access_token`,
`token`, the extracted token is the value of the first truthy field in
exactly that order. -/
theorem token_field_priority (r : RefreshBody)
    (h : (jsTruthy r.accessToken || jsTruthy r.newAccessToken ||
          jsTruthy r.access_token || jsTruthy r.token) = true) :
    extractToken r =
      firstTruthyField
        [r.accessToken, r.newAccessToken, r.access_token, r.token] := by
  cases h1 : jsTruthy r.accessToken <;>
    cases h2 : jsTruthy r.newAccessToken <;>
      cases h3 : jsTruthy r.access_token <;>
        cases h4 : jsTruthy r.token <;>
          simp_all [extractToken, jsOr, firstTruthyField]

/-- Witness for C3: a body carrying both `access_token: "a"` and
`token: "b"` yields `"a"` (first matching field wins). -/
theorem token_field_priority_witness :
    extractToken ⟨none, none, some "a", some "b"⟩ =
      firstTruthyField [none, none, some "a", some "b"] ∧
    extractToken ⟨none, none, some "a", some "b"⟩ = some "a" :=
  ⟨token_field_priority ⟨none, none, some "a", some "b"⟩ (by decide),
   by decide⟩

/-- C4.  No-refresh-token short-circuit: a 401 on a fresh, non-exempt request
whose refresh-token accessor yields null/undefined/empty propagates the 401
and issues zero requests to the refresh endpoint. -/
theorem no_refresh_token_short_circuit (skips : List String) (cb : Bool)
    (url : String) (hs0 : List (String × String)) (rt : Option String)
    (exp : Option Int) (now : Int) (net : Except Unit RefreshBody)
    (hskip : skips.any (fun skipUrl => jsIncludes url skipUrl) = false)
    (hrt : rt = none ∨ rt = some "") :
    (onResponseError skips cb 401 false url hs0 rt exp now net).outcome =
      .propagateResponse ∧
    (onResponseError skips cb 401 false url hs0 rt exp now net).refreshNetCalls
      = 0 := by
  have h : hasRefreshToken rt = false := by
    rcases hrt with h | h <;> subst h <;> rfl
  simp [onResponseError, hskip, h, propagateResult]

/-- Witness for C4 at a concrete input (empty refresh token). -/
theorem no_refresh_token_short_circuit_witness :
    (onResponseError [] true 401 false "/orders" [] (some "") none 0
      (.ok ⟨none, none, none, none⟩)).outcome = .propagateResponse ∧
    (onResponseError [] true 401 false "/orders" [] (some "") none 0
      (.ok ⟨none, none, none, none⟩)).refreshNetCalls = 0 :=
  no_refresh_token_short_circuit [] true "/orders" [] (some "") none 0
    (.ok ⟨none, none, none, none⟩) (by decide) (Or.inr rfl)

/-- C5.  Expiry short-circuit: a refresh attempt with a present refresh token
whose expiry value is already in the past rejects with the
"Refresh token expired" error and issues no network call. -/
theorem expiry_short_circuit (rt : Option String) (e now : Int)
    (net : Except Unit RefreshBody)
    (hrt : jsTruthy rt = true) (hpast : e < now) :
    (refreshTokenRun rt (some e) now net).result = .error .expired ∧
    (refreshTokenRun rt (some e) now net).netCalls = 0 := by
  have hx : expiryExpired (some e) now = true := by
    simp [expiryExpired]
    exact le_of_lt hpast
  simp [refreshTokenRun, hrt, hx]

/-- Witness for C5 at a concrete input (expiry 5, current time 10). -/
theorem expiry_short_circuit_witness :
    (refreshTokenRun (some "r") (some 5) 10
      (.ok ⟨some "x", none, none, none⟩)).result = .error .expired ∧
    (refreshTokenRun (some "r") (some 5) 10
      (.ok ⟨some "x", none, none, none⟩)).netCalls = 0 :=
  expiry_short_circuit (some "r") 5 10 (.ok ⟨some "x", none, none, none⟩)
    (by decide) (by norm_num)

/-- C6.  Exempt paths: a 401 on a fresh request whose URL contains a
configured `skipRefreshUrls` substring is propagated directly, with the
refresh-token accessor never consulted and zero refresh-endpoint requests,
whatever refresh token exists. -/
theorem exempt_paths_skip (skips : List String) (cb : Bool) (url : String)
    (hs0 : List (String × String)) (rt : Option String) (exp : Option Int)
    (now : Int) (net : Except Unit RefreshBody)
    (hskip : skips.any (fun skipUrl => jsIncludes url skipUrl) = true) :
    (onResponseError skips cb 401 false url hs0 rt exp now net).outcome =
      .propagateResponse ∧
    (onResponseError skips cb 401 false url hs0 rt exp now net).rtReads = 0 ∧
    (onResponseError skips cb 401 false url hs0 rt exp now net).refreshNetCalls
      = 0 := by
  simp [onResponseError, hskip, propagateResult]

/-- Witness for C6 at a concrete input: URL `/api/login` matches exempt
substring `/login` while a valid refresh token exists. -/
theorem exempt_paths_skip_witness :
    (onResponseError ["/login"] true 401 false "/api/login" []
      (some "valid-rt") none 0 (.ok ⟨some "x", none, none, none⟩)).outcome =
      .propagateResponse ∧
    (onResponseError ["/login"] true 401 false "/api/login" []
      (some "valid-rt") none 0 (.ok ⟨some "x", none, none, none⟩)).rtReads
      = 0 ∧
    (onResponseError ["/login"] true 401 false "/api/login" []
      (some "valid-rt") none 0
      (.ok ⟨some "x", none, none, none⟩)).refreshNetCalls = 0 :=
  exempt_paths_skip ["/login"] true "/api/login" [] (some "valid-rt") none 0
    (.ok ⟨some "x", none, none, none⟩) (by decide)

/-- C9.  Successful-refresh retry: a 401 on a fresh, non-exempt request with
a refresh token present whose refresh yields token `T` saves exactly `T`
once, stamps the retry flag, sets the retried Authorization header to exactly
`"Bearer " ++ T` (overwriting any previous value), and re-invokes the fetch
exactly once. -/
theorem successful_refresh_retry (skips : List String) (cb : Bool)
    (url : String) (hs0 : List (String × String)) (rt : Option String)
    (exp : Option Int) (now : Int) (net : Except Unit RefreshBody) (T : String)
    (hskip : skips.any (fun skipUrl => jsIncludes url skipUrl) = false)
    (hrt : hasRefreshToken rt = true)
    (hok : (refreshTokenRun rt exp now net).result = .ok (some T)) :
    (onResponseError skips cb 401 false url hs0 rt exp now net).saveCalls =
      [some T] ∧
    (onResponseError skips cb 401 false url hs0 rt exp now net).retriedSet =
      true ∧
    (onResponseError skips cb 401 false url hs0 rt exp now net).retriedHeaders
      = some (setHeader hs0 "Authorization" ("Bearer " ++ T)) ∧
    ((onResponseError skips cb 401 false url hs0 rt exp now
        net).retriedHeaders.map fun hs => hs.lookup "Authorization") =
      some (some ("Bearer " ++ T)) ∧
    (onResponseError skips cb 401 false url hs0 rt exp now net).outcome =
      .refetch (some T) ∧
    (onResponseError skips cb 401 false url hs0 rt exp now net).refetchCount
      = 1 := by
  simp [onResponseError, hskip, hrt, hok, jsInterp, setHeader, List.lookup]

/-- Witness for C9: refresh response `{ newAccessToken: "T2" }` on a 401 for
`/orders` gives a retried request whose Authorization header is
`Bearer T2` (replacing the stale one) and one save of `"T2"`. -/
theorem successful_refresh_retry_witness :
    (onResponseError [] true 401 false "/orders"
      [("Authorization", "Bearer old")] (some "r") none 0
      (.ok ⟨none, some "T2", none, none⟩)).saveCalls = [some "T2"] ∧
    (onResponseError [] true 401 false "/orders"
      [("Authorization", "Bearer old")] (some "r") none 0
      (.ok ⟨none, some "T2", none, none⟩)).retriedSet = true ∧
    (onResponseError [] true 401 false "/orders"
      [("Authorization", "Bearer old")] (some "r") none 0
      (.ok ⟨none, some "T2", none, none⟩)).retriedHeaders =
      some (setHeader [("Authorization", "Bearer old")] "Authorization"
        ("Bearer " ++ "T2")) ∧
    ((onResponseError [] true 401 false "/orders"
      [("Authorization", "Bearer old")] (some "r") none 0
      (.ok ⟨none, some "T2", none, none⟩)).retriedHeaders.map
        fun hs => hs.lookup "Authorization") =
      some (some ("Bearer " ++ "T2")) ∧
    (onResponseError [] true 401 false "/orders"
      [("Authorization", "Bearer old")] (some "r") none 0
      (.ok ⟨none, some "T2", none, none⟩)).outcome = .refetch (some "T2") ∧
    (onResponseError [] true 401 false "/orders"
      [("Authorization", "Bearer old")] (some "r") none 0
      (.ok ⟨none, some "T2", none, none⟩)).refetchCount = 1 :=
  successful_refresh_retry [] true "/orders" [("Authorization", "Bearer old")]
    (some "r") none 0 (.ok ⟨none, some "T2", none, none⟩) "T2" (by decide)
    (by decide) (by decide)

/-- C10.  Missing-token-field behaviour: when the refresh POST succeeds but
the body carries none of the four recognised fields, `refreshToken` resolves
with `undefined` rather than rejecting; the interceptor then saves
`undefined`, retries with header `Bearer undefined`, and no failure callback
runs. -/
theorem missing_token_field_resolves (skips : List String) (cb : Bool)
    (url : String) (hs0 : List (String × String)) (rt : Option String)
    (exp : Option Int) (now : Int) (body : RefreshBody)
    (hskip : skips.any (fun skipUrl => jsIncludes url skipUrl) = false)
    (hrt : hasRefreshToken rt = true)
    (hexp : expiryExpired exp now = false)
    (ha : body.accessToken = none) (hb : body.newAccessToken = none)
    (hc : body.access_token = none) (hd : body.token = none) :
    (refreshTokenRun rt exp now (.ok body)).result = .ok none ∧
    (onResponseError skips cb 401 false url hs0 rt exp now
      (.ok body)).outcome = .refetch none ∧
    (onResponseError skips cb 401 false url hs0 rt exp now
      (.ok body)).saveCalls = [none] ∧
    (onResponseError skips cb 401 false url hs0 rt exp now
      (.ok body)).retriedHeaders =
      some (setHeader hs0 "Authorization" "Bearer undefined") ∧
    (onResponseError skips cb 401 false url hs0 rt exp now
      (.ok body)).failCallbackCalls = 0 := by
  have hjs : jsTruthy rt = true := by
    rw [← hasRefreshToken_eq_jsTruthy]
    exact hrt
  have hres : (refreshTokenRun rt exp now (.ok body)).result = .ok none := by
    rw [refreshTokenRun_net rt exp now (.ok body) hjs hexp]
    simp [issueRefreshNet, extractToken, ha, hb, hc, hd, jsOr, jsTruthy]
  have hstr : "Bearer " ++ jsInterp none = "Bearer undefined" := rfl
  refine ⟨hres, ?_⟩
  simp [onResponseError, hskip, hrt, hres, hstr]

/-- Witness for C10 at a concrete input: body `{ ok: true }` with no token
field. -/
theorem missing_token_field_resolves_witness :
    (refreshTokenRun (some "r") none 0
      (.ok ⟨none, none, none, none⟩)).result = .ok none ∧
    (onResponseError [] true 401 false "/orders" [] (some "r") none 0
      (.ok ⟨none, none, none, none⟩)).outcome = .refetch none ∧
    (onResponseError [] true 401 false "/orders" [] (some "r") none 0
      (.ok ⟨none, none, none, none⟩)).saveCalls = [none] ∧
    (onResponseError [] true 401 false "/orders" [] (some "r") none 0
      (.ok ⟨none, none, none, none⟩)).retriedHeaders =
      some (setHeader [] "Authorization" "Bearer undefined") ∧
    (onResponseError [] true 401 false "/orders" [] (some "r") none 0
      (.ok ⟨none, none, none, none⟩)).failCallbackCalls = 0 :=
  missing_token_field_resolves [] true "/orders" [] (some "r") none 0
    ⟨none, none, none, none⟩ (by decide) (by decide) (by decide)
    rfl rfl rfl rfl

/-! Bounded retry. -/

/-- With the retry flag already set, the interceptor never enters the
refresh branch: it re-throws the response, whatever the status. -/
theorem onResponseError_retried (skips : List String) (cb : Bool)
    (status : Nat) (url : String) (hs0 : List (String × String))
    (rt : Option String) (exp : Option Int) (now : Int)
    (net : Except Unit RefreshBody) :
    onResponseError skips cb status true url hs0 rt exp now net =
      propagateResult := by
  simp [onResponseError]

/-- C2.  Bounded retry: every logical call issues at most two transport
sends (hence at most one retry) and never reaches a second retry; a request
already carrying the retried flag that receives another 401 is re-thrown
unchanged, with zero further re-invocations. -/
theorem bounded_retry (env : FetchEnv) :
    ((runCall env).2 ≤ 2 ∧ (runCall env).1 ≠ CallOutcome.furtherRetry) ∧
    (onResponseError env.skipRefreshUrls env.hasFailCallback 401 true env.url
      env.headers0 env.rt env.exp env.now env.net).outcome =
      HandlerOutcome.propagateResponse ∧
    (onResponseError env.skipRefreshUrls env.hasFailCallback 401 true env.url
      env.headers0 env.rt env.exp env.now env.net).refetchCount = 0 := by
  have hret : ∀ st : Nat,
      onResponseError env.skipRefreshUrls env.hasFailCallback st true env.url
        env.headers0 env.rt env.exp env.now env.net = propagateResult :=
    fun st => onResponseError_retried env.skipRefreshUrls env.hasFailCallback
      st env.url env.headers0 env.rt env.exp env.now env.net
  have hmain : (runCall env).2 ≤ 2 ∧
      (runCall env).1 ≠ CallOutcome.furtherRetry := by
    by_cases h0 : env.statusOf false < 400
    · simp [runCall, h0]
    · rcases hout : (onResponseError env.skipRefreshUrls env.hasFailCallback
          (env.statusOf false) false env.url env.headers0 env.rt env.exp
          env.now env.net).outcome with _ | tok | e
      · simp [runCall, h0, hout]
      · by_cases h1 : env.statusOf true < 400
        · simp [runCall, h0, hout, h1]
        · simp [runCall, h0, hout, h1, hret, propagateResult]
      · simp [runCall, h0, hout]
  exact ⟨hmain, by simp [hret, propagateResult], by simp [hret, propagateResult]⟩

/-- Witness for C2 at a concrete environment in which every attempt returns
401: the call still performs at most one retry and never loops. -/
theorem bounded_retry_witness :
    ((runCall ⟨[], true, "/orders", [], some "r", none, 0,
        .ok ⟨none, some "T2", none, none⟩, fun _ => 401⟩).2 ≤ 2 ∧
      (runCall ⟨[], true, "/orders", [], some "r", none, 0,
        .ok ⟨none, some "T2", none, none⟩, fun _ => 401⟩).1 ≠
        CallOutcome.furtherRetry) ∧
    (onResponseError [] true 401 true "/orders" [] (some "r") none 0
      (.ok ⟨none, some "T2", none, none⟩)).outcome =
      HandlerOutcome.propagateResponse ∧
    (onResponseError [] true 401 true "/orders" [] (some "r") none 0
      (.ok ⟨none, some "T2", none, none⟩)).refetchCount = 0 :=
  bounded_retry ⟨[], true, "/orders", [], some "r", none, 0,
    .ok ⟨none, some "T2", none, none⟩, fun _ => 401⟩

/-! Coordinator lemmas. -/

/-- A `req401` arriving while a refresh is pending only adds the caller as a
waiter on the pending promise; nothing else changes. -/
theorem stepCoord_join (cb : Bool) (run : RefreshRun) (s : CoordState)
    (c p : Nat) (h : s.refreshPromise = some p) :
    stepCoord cb run s (CEvent.req401 c) =
      { s with waiters := (c, p) :: s.waiters } := by
  simp [stepCoord, h]

/-- Folding a block of `req401` events over a state with a pending refresh
adds all of them as waiters on that same promise and changes nothing else. -/
theorem foldl_req401_join (cb : Bool) (run : RefreshRun) (cs : List Nat)
    (s : CoordState) (p : Nat) (h : s.refreshPromise = some p) :
    (cs.map CEvent.req401).foldl (stepCoord cb run) s =
      { s with waiters := (cs.reverse.map (fun c => (c, p))) ++ s.waiters } := by
  induction cs generalizing s with
  | nil => simp
  | cons c cs ih =>
    rw [List.map_cons, List.foldl_cons, stepCoord_join cb run s c p h,
      ih _ (by simp [h])]
    simp [List.map_append]

/-- Looking up any member of a constant-valued association list yields that
value. -/
theorem lookup_map_const (l : List Nat) (c p : Nat) (h : c ∈ l) :
    (l.map (fun x => (x, p))).lookup c = some p := by
  induction l with
  | nil => cases h
  | cons x l ih =>
    simp only [List.map_cons, List.lookup]
    cases hcx : c == x with
    | true => rfl
    | false =>
      have h' : c ∈ l := by
        rcases List.mem_cons.mp h with rfl | h1
        · simp at hcx
        · exact h1
      simpa using ih h'

/-- Bootstrapping step: a `req401` arriving while the coordinator is idle
starts exactly one `refreshToken()` invocation, issues its network calls,
and registers the caller on the fresh promise. -/
theorem stepCoord_start (cb : Bool) (run : RefreshRun) (c : Nat) :
    stepCoord cb run initCoord (CEvent.req401 c) =
      { refreshPromise := some 0
        isRefreshing := true
        pending := some (runOutcome run)
        nextId := 1
        starts := 1
        endpointCalls := run.netCalls
        waiters := [(c, 0)]
        settledOutcomes := []
        delivered := []
        failCallbackCalls := 0
        savedTokens := [] } := by
  simp [stepCoord, initCoord]

/-- Full state after the canonical single-flight trace: one refresh started,
its network calls issued, everyone waiting on promise `0`, which settled
with the outcome of the refresh run. -/
theorem runCoord_singleFlight (cb : Bool) (run : RefreshRun) (c0 : Nat)
    (cs : List Nat) :
    runCoord cb run (singleFlightTrace c0 cs) =
      { refreshPromise := none
        isRefreshing := false
        pending := none
        nextId := 1
        starts := 1
        endpointCalls := run.netCalls
        waiters := (cs.reverse ++ [c0]).map (fun c => (c, 0))
        settledOutcomes := [(0, runOutcome run)]
        delivered := []
        failCallbackCalls := 0
        savedTokens := [] } := by
  unfold runCoord singleFlightTrace
  rw [List.foldl_append]
  simp only [List.map_cons, List.foldl_cons, List.foldl_nil]
  rw [stepCoord_start cb run c0, foldl_req401_join cb run cs _ 0 rfl]
  simp [stepCoord, List.map_append]

/-- C1.  Single-flight refresh: when the 401 of caller `c0` starts a refresh and each
caller in `cs` observes a 401 while it is pending, every caller is handed
the same promise `0`, exactly one `refreshToken()` starts, exactly one
request reaches the refresh endpoint, and after settlement every caller
observes the same outcome. -/
theorem single_flight_refresh (c0 : Nat) (cs : List Nat) (cb : Bool)
    (rt : Option String) (exp : Option Int) (now : Int)
    (net : Except Unit RefreshBody)
    (hrt : jsTruthy rt = true) (hexp : expiryExpired exp now = false) :
    (runCoord cb (refreshTokenRun rt exp now net)
      (singleFlightTrace c0 cs)).starts = 1 ∧
    (runCoord cb (refreshTokenRun rt exp now net)
      (singleFlightTrace c0 cs)).endpointCalls = 1 ∧
    (∀ c ∈ c0 :: cs,
      (runCoord cb (refreshTokenRun rt exp now net)
        (singleFlightTrace c0 cs)).waiters.lookup c = some 0) ∧
    (∀ c ∈ c0 :: cs,
      observe (runCoord cb (refreshTokenRun rt exp now net)
        (singleFlightTrace c0 cs)) c =
        some (runOutcome (refreshTokenRun rt exp now net))) := by
  rw [runCoord_singleFlight]
  have hmem : ∀ c ∈ c0 :: cs, c ∈ cs.reverse ++ [c0] := by
    intro c hc
    rcases List.mem_cons.mp hc with rfl | hc
    · simp
    · simp [List.mem_reverse, hc]
  refine ⟨rfl, ?_, ?_, ?_⟩
  · simp [refreshTokenRun_net rt exp now net hrt hexp,
      issueRefreshNet_netCalls]
  · intro c hc
    exact lookup_map_const _ c 0 (hmem c hc)
  · intro c hc
    have hl : ((cs.reverse ++ [c0]).map (fun x => (x, 0))).lookup c = some 0 :=
      lookup_map_const _ c 0 (hmem c hc)
    show (((cs.reverse ++ [c0]).map (fun x => (x, 0))).lookup c).bind
        (fun p =>
          [(0, runOutcome (refreshTokenRun rt exp now net))].lookup p) =
      some (runOutcome (refreshTokenRun rt exp now net))
    rw [hl]
    rfl

/-- Witness for C1: callers `1, 2, 3` (caller `1` starting the refresh, `2`
and `3` joining while pending) against a refresh endpoint answering
`{ newAccessToken: "T2" }`: one start, one endpoint request, and both
joiners observe the same successful outcome. -/
theorem single_flight_refresh_witness :
    (runCoord true (refreshTokenRun (some "r") none 0
      (.ok ⟨none, some "T2", none, none⟩))
      (singleFlightTrace 1 [2, 3])).starts = 1 ∧
    (runCoord true (refreshTokenRun (some "r") none 0
      (.ok ⟨none, some "T2", none, none⟩))
      (singleFlightTrace 1 [2, 3])).endpointCalls = 1 ∧
    observe (runCoord true (refreshTokenRun (some "r") none 0
      (.ok ⟨none, some "T2", none, none⟩))
      (singleFlightTrace 1 [2, 3])) 2 = some (.success (some "T2")) ∧
    observe (runCoord true (refreshTokenRun (some "r") none 0
      (.ok ⟨none, some "T2", none, none⟩))
      (singleFlightTrace 1 [2, 3])) 3 = some (.success (some "T2")) :=
  ⟨(single_flight_refresh 1 [2, 3] true (some "r") none 0
      (.ok ⟨none, some "T2", none, none⟩) (by decide) (by decide)).1,
   (single_flight_refresh 1 [2, 3] true (some "r") none 0
      (.ok ⟨none, some "T2", none, none⟩) (by decide) (by decide)).2.1,
   (single_flight_refresh 1 [2, 3] true (some "r") none 0
      (.ok ⟨none, some "T2", none, none⟩) (by decide) (by decide)).2.2.2 2
      (by decide),
   (single_flight_refresh 1 [2, 3] true (some "r") none 0
      (.ok ⟨none, some "T2", none, none⟩) (by decide) (by decide)).2.2.2 3
      (by decide)⟩

/-! State reset: the coordinator invariant and its preservation. -/

/-- The initial coordinator state satisfies the invariant. -/
theorem coordInv_init : CoordInv initCoord := by
  constructor
  · intro q hq
    simp [initCoord] at hq
  · intro p hp
    simp [initCoord] at hp

/-- A `req401` on an idle coordinator starts one `refreshToken()`
invocation on a fresh promise and issues the network calls of the run. -/
theorem stepCoord_start_general (cb : Bool) (run : RefreshRun)
    (s : CoordState) (c : Nat) (hp : s.refreshPromise = none) :
    stepCoord cb run s (CEvent.req401 c) =
      { s with
        refreshPromise := some s.nextId
        isRefreshing := true
        pending := some (runOutcome run)
        nextId := s.nextId + 1
        starts := s.starts + 1
        endpointCalls := s.endpointCalls + run.netCalls
        waiters := (c, s.nextId) :: s.waiters } := by
  simp [stepCoord, hp]

/-- The `.then`/`.catch` handler of a settling refresh records the outcome
and clears the shared in-flight state in the same atomic segment. -/
theorem stepCoord_settle (cb : Bool) (run : RefreshRun) (s : CoordState)
    (p : Nat) (o : COutcome) (hp : s.refreshPromise = some p)
    (hq : s.pending = some o) :
    stepCoord cb run s CEvent.settle =
      { s with
        settledOutcomes := (p, o) :: s.settledOutcomes
        refreshPromise := none
        pending := none
        isRefreshing := false } := by
  simp [stepCoord, hp, hq]

/-- A `resume` never changes the settled outcomes, the in-flight handle or
the allocation counter. -/
theorem stepCoord_resume_frame (cb : Bool) (run : RefreshRun)
    (s : CoordState) (c : Nat) :
    (stepCoord cb run s (CEvent.resume c)).settledOutcomes =
      s.settledOutcomes ∧
    (stepCoord cb run s (CEvent.resume c)).refreshPromise =
      s.refreshPromise ∧
    (stepCoord cb run s (CEvent.resume c)).nextId = s.nextId := by
  refine ⟨?_, ?_, ?_⟩ <;>
  · simp only [stepCoord]
    split
    · rfl
    · split
      · rfl
      · split <;> rfl

/-- Every coordinator step preserves the invariant. -/
theorem coordInv_step (cb : Bool) (run : RefreshRun) (s : CoordState)
    (e : CEvent) (h : CoordInv s) : CoordInv (stepCoord cb run s e) := by
  obtain ⟨h1, h2⟩ := h
  cases e with
  | req401 c =>
    cases hp : s.refreshPromise with
    | some p =>
      rw [stepCoord_join cb run s c p hp]
      exact ⟨h1, h2⟩
    | none =>
      rw [stepCoord_start_general cb run s c hp]
      constructor
      · intro q hq
        exact Nat.lt_succ_of_lt (h1 q hq)
      · intro p' hp'
        have hpe : s.nextId = p' := by simpa using hp'
        subst hpe
        refine ⟨Nat.lt_succ_self _, fun o ho => ?_⟩
        exact lt_irrefl _ (h1 (s.nextId, o) ho)
  | settle =>
    cases hp : s.refreshPromise with
    | none =>
      have hstep : stepCoord cb run s CEvent.settle = s := by
        simp [stepCoord, hp]
      rw [hstep]
      exact ⟨h1, h2⟩
    | some p =>
      cases hq : s.pending with
      | none =>
        have hstep : stepCoord cb run s CEvent.settle = s := by
          simp [stepCoord, hp, hq]
        rw [hstep]
        exact ⟨h1, h2⟩
      | some o =>
        rw [stepCoord_settle cb run s p o hp hq]
        constructor
        · intro q hqm
          rcases List.mem_cons.mp hqm with rfl | hqm'
          · exact (h2 p hp).1
          · exact h1 q hqm'
        · intro p' hp'
          simp at hp'
  | resume c =>
    have hf := stepCoord_resume_frame cb run s c
    constructor
    · intro q hq
      rw [hf.1] at hq
      rw [hf.2.2]
      exact h1 q hq
    · intro p' hp'
      rw [hf.2.1] at hp'
      rw [hf.2.2, hf.1]
      exact h2 p' hp'

/-- The invariant holds along any event sequence. -/
theorem coordInv_foldl (cb : Bool) (run : RefreshRun) (evs : List CEvent)
    (s : CoordState) (h : CoordInv s) :
    CoordInv (evs.foldl (stepCoord cb run) s) := by
  induction evs generalizing s with
  | nil => simpa using h
  | cons e evs ih =>
    rw [List.foldl_cons]
    exact ih _ (coordInv_step cb run s e h)

/-- The invariant holds in every reachable coordinator state. -/
theorem coordInv_runCoord (cb : Bool) (run : RefreshRun)
    (evs : List CEvent) : CoordInv (runCoord cb run evs) :=
  coordInv_foldl cb run evs initCoord coordInv_init

/-- C8.  State reset: in every reachable state, a promise that has settled
is no longer the in-flight handle (`refreshPromise` is cleared in the same
atomic segment that records the outcome, before any waiter resumes); and
whenever the handle is clear, a new 401 starts a brand-new `refreshToken()`
invocation on a promise that has never settled before. -/
theorem state_reset (cb : Bool) (run : RefreshRun) (evs : List CEvent) :
    (∀ p o, (p, o) ∈ (runCoord cb run evs).settledOutcomes →
      (runCoord cb run evs).refreshPromise ≠ some p) ∧
    ((runCoord cb run evs).refreshPromise = none →
      ∀ c,
        (stepCoord cb run (runCoord cb run evs) (CEvent.req401 c)).starts =
          (runCoord cb run evs).starts + 1 ∧
        (stepCoord cb run (runCoord cb run evs)
          (CEvent.req401 c)).refreshPromise =
          some (runCoord cb run evs).nextId ∧
        ∀ o, ((runCoord cb run evs).nextId, o) ∉
          (runCoord cb run evs).settledOutcomes) := by
  obtain ⟨h1, h2⟩ := coordInv_runCoord cb run evs
  constructor
  · intro p o hmem hsome
    exact (h2 p hsome).2 o hmem
  · intro hnone c
    rw [stepCoord_start_general cb run _ c hnone]
    refine ⟨rfl, rfl, fun o ho => ?_⟩
    exact lt_irrefl _ (h1 _ ho)

/-- Witness for C8: after a one-caller refresh settles, the handle is clear
and a later 401 from caller `2` starts a second, fresh refresh. -/
theorem state_reset_witness :
    ((runCoord true (refreshTokenRun (some "r") none 0
        (.ok ⟨none, some "T2", none, none⟩))
      [CEvent.req401 1, CEvent.settle]).refreshPromise ≠ some 0) ∧
    (stepCoord true (refreshTokenRun (some "r") none 0
        (.ok ⟨none, some "T2", none, none⟩))
      (runCoord true (refreshTokenRun (some "r") none 0
        (.ok ⟨none, some "T2", none, none⟩))
        [CEvent.req401 1, CEvent.settle]) (CEvent.req401 2)).starts =
      (runCoord true (refreshTokenRun (some "r") none 0
        (.ok ⟨none, some "T2", none, none⟩))
        [CEvent.req401 1, CEvent.settle]).starts + 1 :=
  ⟨(state_reset true (refreshTokenRun (some "r") none 0
      (.ok ⟨none, some "T2", none, none⟩))
      [CEvent.req401 1, CEvent.settle]).1 0
      (COutcome.success (some "T2")) (by decide),
   ((state_reset true (refreshTokenRun (some "r") none 0
      (.ok ⟨none, some "T2", none, none⟩))
      [CEvent.req401 1, CEvent.settle]).2 (by decide) 2).1⟩

/-! Failure-callback multiplicity. -/

/-- Counterexample for C7 as stated: one definitively-failed refresh
(expired refresh token, no network call) with two concurrent waiters invokes
the configured failure callback twice, not exactly once. -/
theorem refresh_failure_callback_counterexample :
    (runCoord true (refreshTokenRun (some "r") (some 5) 10
        (.ok ⟨none, none, none, none⟩))
      (failureTrace [1, 2])).failCallbackCalls = 2 := by decide

/-- Resuming a block of distinct, undelivered waiters of a promise that
settled with a failure invokes the failure callback once per waiter. -/
theorem foldl_resume_failures (run : RefreshRun) (e : RefreshErr) :
    ∀ (cs : List Nat) (s : CoordState) (p : Nat),
      (∀ c ∈ cs, s.waiters.lookup c = some p) →
      s.settledOutcomes.lookup p = some (.failure e) →
      cs.Nodup → (∀ c ∈ cs, c ∉ s.delivered) →
      ((cs.map CEvent.resume).foldl (stepCoord true run) s).failCallbackCalls
        = s.failCallbackCalls + cs.length := by
  intro cs
  induction cs with
  | nil =>
    intro s p _ _ _ _
    simp
  | cons c cs ih =>
    intro s p hw hs hnd hdel
    have hc : s.waiters.lookup c = some p := hw c (by simp)
    have hdc : c ∉ s.delivered := hdel c (by simp)
    have hstep : stepCoord true run s (CEvent.resume c) =
        { s with
          delivered := c :: s.delivered
          failCallbackCalls := s.failCallbackCalls + 1 } := by
      simp [stepCoord, hdc, hc, hs]
    rw [List.map_cons, List.foldl_cons, hstep]
    rw [ih { s with
        delivered := c :: s.delivered
        failCallbackCalls := s.failCallbackCalls + 1 } p
      (fun c' hc' => hw c' (List.mem_cons_of_mem c hc'))
      hs
      (List.nodup_cons.mp hnd).2
      (fun c' hc' => by
        show c' ∉ c :: s.delivered
        intro hmem
        rcases List.mem_cons.mp hmem with rfl | hmem'
        · exact (List.nodup_cons.mp hnd).1 hc'
        · exact hdel c' (List.mem_cons_of_mem c hc') hmem')]
    show s.failCallbackCalls + 1 + cs.length =
      s.failCallbackCalls + (c :: cs).length
    simp [List.length_cons]
    omega

/-- C7 corrected.  Per-caller failure callback: a definitively-failed
refresh with distinct concurrent waiters `cs` invokes the configured
`onRefreshFailCallback` exactly once per waiter — `cs.length` times in
total, not once overall. -/
theorem refresh_failure_callback_per_caller (cs : List Nat) (e : RefreshErr)
    (rt : Option String) (exp : Option Int) (now : Int)
    (net : Except Unit RefreshBody)
    (hrun : (refreshTokenRun rt exp now net).result = .error e)
    (hnd : cs.Nodup) :
    (runCoord true (refreshTokenRun rt exp now net)
      (failureTrace cs)).failCallbackCalls = cs.length := by
  cases cs with
  | nil => rfl
  | cons c0 cs' =>
    have ho : runOutcome (refreshTokenRun rt exp now net) =
        COutcome.failure e := by
      simp [runOutcome, hrun]
    have htr : runCoord true (refreshTokenRun rt exp now net)
        (failureTrace (c0 :: cs')) =
        (((c0 :: cs').map CEvent.resume)).foldl
          (stepCoord true (refreshTokenRun rt exp now net))
          (runCoord true (refreshTokenRun rt exp now net)
            (singleFlightTrace c0 cs')) := by
      simp [runCoord, failureTrace, singleFlightTrace, List.foldl_append]
    rw [htr, runCoord_singleFlight, ho]
    have hmem : ∀ c ∈ c0 :: cs', c ∈ cs'.reverse ++ [c0] := by
      intro c hc
      rcases List.mem_cons.mp hc with rfl | hc
      · simp
      · simp [List.mem_reverse, hc]
    rw [foldl_resume_failures (refreshTokenRun rt exp now net) e
      (c0 :: cs') _ 0
      (fun c hc => lookup_map_const _ c 0 (hmem c hc))
      (by simp [List.lookup])
      hnd
      (fun c hc hm => by simp at hm)]
    simp

/-- Witness for the corrected C7: three distinct waiters on one expired
refresh see the failure callback run three times. -/
theorem refresh_failure_callback_per_caller_witness :
    (runCoord true (refreshTokenRun (some "r") (some 5) 10
        (.ok ⟨none, none, none, none⟩))
      (failureTrace [1, 2, 3])).failCallbackCalls = 3 :=
  refresh_failure_callback_per_caller [1, 2, 3] RefreshErr.expired
    (some "r") (some 5) 10 (.ok ⟨none, none, none, none⟩)
    (by decide) (by decide)

end FetchManagerModel
